import Mathlib

/-!
Shallow embedding of `src/task_api.py` (Task Management API with Salesforce
OAuth session tokens) and verification of its specification claims.

The HTTP layer is dropped; each route handler becomes a pure function over
explicit state. The two pieces of mutable state are

* `tasks_db : List Task` — the in-memory task store (a Python list), and
* `TokensDb = List (String × ProviderTokens)` — the session token map
  (a Python dict keyed by the derived user id, insertion ordered).

`HTTPException` is modelled by `HTTPErr`; a handler that can raise returns
`Except HTTPErr α`. The external provider is an opaque collaborator: its
answer to the single outbound POST of a code/refresh-token exchange is the
`ProviderResponse` argument of the exchange handlers.
-/

set_option linter.unusedVariables false

namespace TaskApi

/-- Source `StatusEnum`: the fixed task-status enumeration. -/
inductive StatusEnum where
  | PAS_COMMENCE
  | EN_COURS
  | TERMINEE
deriving DecidableEq, Repr

/-- The string value each `StatusEnum` member carries in the source. -/
def StatusEnum.val : StatusEnum → String
  | .PAS_COMMENCE => "Pas commencé"
  | .EN_COURS => "En cours"
  | .TERMINEE => "Terminée"

/-- Source `PriorityEnum`: the fixed task-priority enumeration. -/
inductive PriorityEnum where
  | HIGH
  | NORMAL
  | LOW
deriving DecidableEq, Repr

/-- The string value each `PriorityEnum` member carries in the source. -/
def PriorityEnum.val : PriorityEnum → String
  | .HIGH => "High"
  | .NORMAL => "Normal"
  | .LOW => "Low"

/-- Source `TaskBase`: the mutable fields of a task record. -/
structure TaskBase where
  Task_Name__c : String
  Status : StatusEnum
  Capacite__c : Int
  Effort_Realise__c : Int
  subject : String := "Other"
  Priority : PriorityEnum
deriving DecidableEq, Repr

/-- Source `TaskCreate`: identical to `TaskBase` (a `pass` subclass). -/
abbrev TaskCreate := TaskBase

/-- Source `Task`: a stored record, `TaskBase` plus the `id`. -/
structure Task where
  id : Int
  Task_Name__c : String
  Status : StatusEnum
  Capacite__c : Int
  Effort_Realise__c : Int
  subject : String := "Other"
  Priority : PriorityEnum
deriving DecidableEq, Repr

/-- Source `User` (pydantic model returned by `get_current_user`). -/
structure User where
  username : String
  email : Option String := none
  full_name : Option String := none
  disabled : Option Bool := none
  scopes : List String := []
deriving DecidableEq, Repr

/-- The parsed JSON body the provider returns from a successful token
exchange (`response.json()` in the source): the fields the handlers read. -/
structure ProviderTokens where
  access_token : String
  token_type : String
  refresh_token : Option String := none
  scope : Option String := none
  instance_url : Option String := none
  expires_in : Option Int := none
deriving DecidableEq, Repr

/-- The provider's answer to the outbound `requests.post(TOKEN_URL, ...)`:
HTTP status, raw body text, and the parsed JSON used on the 200 path. -/
structure ProviderResponse where
  status_code : Nat
  text : String
  tokens : ProviderTokens
deriving DecidableEq, Repr

/-- Source `Token`: the response model of `POST /oauth/token`. -/
structure Token where
  access_token : String
  token_type : String
  expires_in : Int
  refresh_token : Option String := none
  scope : Option String := none
  instance_url : Option String := none
deriving DecidableEq, Repr

/-- Source `HTTPException(status_code, detail)`. -/
structure HTTPErr where
  status_code : Nat
  detail : String
deriving DecidableEq, Repr

/-- Source `tokens_db`: the session token map, a dict
`{user_id: provider token payload}` modelled as an ordered association list. -/
abbrev TokensDb := List (String × ProviderTokens)

/-- Source `task_names`: names for the pre-populated tasks. -/
def task_names : List String :=
  [ "api test 9",
    "Complete project requirements documentation",
    "Develop frontend UI components",
    "Set up database schema and models",
    "Implement API authentication",
    "Create automated test suite",
    "Perform security audit",
    "Optimize database queries",
    "Deploy application to staging",
    "Conduct user acceptance testing",
    "Fix reported bugs in module A",
    "Update user documentation",
    "Refactor legacy code module",
    "Integrate with third-party payment API",
    "Create admin dashboard",
    "Implement user notification system",
    "Perform load testing",
    "Migrate data from old system",
    "Review and improve error handling",
    "Implement logging and monitoring",
    "Prepare release notes for v1.0" ]

/-- One iteration of the population loop `for i in range(1, 21)` of the
source: the task stored for index `i`. -/
def init_task (i : Nat) : Task :=
  { id := (i : Int)
    Task_Name__c :=
      if i - 1 < task_names.length then task_names.getD (i - 1) ""
      else "Task " ++ toString i
    Status :=
      if i % 3 == 1 then .EN_COURS
      else if i % 3 == 2 then .TERMINEE
      else .PAS_COMMENCE
    Capacite__c := (80 : Int) - ((i % 5 : Nat) : Int) * 10
    Effort_Realise__c := (20 : Int) + ((i % 4 : Nat) : Int) * 15
    subject := "Other"
    Priority :=
      if i % 3 == 0 then .HIGH
      else if i % 3 == 1 then .NORMAL
      else .LOW }

/-- Source `tasks_db` after module initialization: the 20 pre-populated tasks. -/
def initial_tasks_db : List Task :=
  (List.range 20).map (fun k => init_task (k + 1))

/-- Source `credentials_exception` of `get_current_user`. -/
def credentials_exception : HTTPErr :=
  { status_code := 401, detail := "Could not validate credentials" }

/-- Source `get_current_user`: scan `tokens_db` for an entry whose
`access_token` equals the presented bearer token; on a hit build the `User`
(username = stored key, `disabled=False`, `scopes=["api"]`), else the caller
raises `credentials_exception` (modelled by `none`). -/
def get_current_user (token : String) (tdb : TokensDb) : Option User :=
  (tdb.find? (fun p => p.2.access_token == token)).map (fun p =>
    { username := p.1
      email := some (p.1 ++ "@example.com")
      full_name := some ("User " ++ p.1)
      disabled := some false
      scopes := ["api"] })

/-- Handler `create_task` body: assign `id = len(tasks_db) + 1`, append,
return the new record. The handler receives `current_user` but never reads
it. Returns (response record, new store). -/
def create_task (task : TaskCreate) (current_user : User) (db : List Task) :
    Task × List Task :=
  let new_task : Task :=
    { id := (db.length : Int) + 1
      Task_Name__c := task.Task_Name__c
      Status := task.Status
      Capacite__c := task.Capacite__c
      Effort_Realise__c := task.Effort_Realise__c
      subject := task.subject
      Priority := task.Priority }
  (new_task, db ++ [new_task])

/-- Handler `read_tasks` body: the Python slice `tasks_db[skip : skip+limit]`
for non-negative `skip`/`limit`. `current_user` is unread. -/
def read_tasks (skip limit : Nat) (current_user : User) (db : List Task) :
    List Task :=
  (db.drop skip).take limit

/-- Handler `read_task` body: linear scan, return the first record whose
`id` equals `task_id`; `none` models raising 404. `current_user` unread. -/
def read_task (task_id : Int) (current_user : User) (db : List Task) :
    Option Task :=
  db.find? (fun t => t.id == task_id)

/-- The `Task(id=task_id, ...)` record `update_task` builds from the
request body. -/
def taskOfBase (task_id : Int) (b : TaskBase) : Task :=
  { id := task_id
    Task_Name__c := b.Task_Name__c
    Status := b.Status
    Capacite__c := b.Capacite__c
    Effort_Realise__c := b.Effort_Realise__c
    subject := b.subject
    Priority := b.Priority }

/-- Handler `update_task` body: enumerate the store, replace the first
record whose `id` equals `task_id` with `Task(id=task_id, ...body...)` in
place and return it; `none` models raising 404. `current_user` unread.
Returns (response record, new store). -/
def update_task (task_id : Int) (task_update : TaskBase) (current_user : User) :
    List Task → Option (Task × List Task)
  | [] => none
  | t :: ts =>
    if t.id == task_id then
      some (taskOfBase task_id task_update, taskOfBase task_id task_update :: ts)
    else
      (update_task task_id task_update current_user ts).map
        (fun r => (r.1, t :: r.2))

/-- Handler `delete_task` body: enumerate the store, `pop` the first record
whose `id` equals `task_id`; `none` models raising 404. `current_user`
unread. Returns the new store. -/
def delete_task (task_id : Int) (current_user : User) :
    List Task → Option (List Task)
  | [] => none
  | t :: ts =>
    if t.id == task_id then some ts
    else (delete_task task_id current_user ts).map (fun r => t :: r)

/-- Route `POST /tasks/` as served: `Depends(get_current_user)` then the handler;
success is status 201 with the created record. -/
def create_endpoint (token : String) (tdb : TokensDb) (task : TaskCreate)
    (db : List Task) : Except HTTPErr (Nat × Task × List Task) :=
  match get_current_user token tdb with
  | none => .error credentials_exception
  | some u =>
    let r := create_task task u db
    .ok (201, r.1, r.2)

/-- Route `GET /tasks/` as served: auth gate then the slice; success status 200. -/
def read_tasks_endpoint (token : String) (tdb : TokensDb) (skip limit : Nat)
    (db : List Task) : Except HTTPErr (Nat × List Task) :=
  match get_current_user token tdb with
  | none => .error credentials_exception
  | some u => .ok (200, read_tasks skip limit u db)

/-- Route `GET /tasks/{task_id}` as served: auth gate, then 200 with the record or
404 `"Task not found"`. -/
def read_task_endpoint (token : String) (tdb : TokensDb) (task_id : Int)
    (db : List Task) : Except HTTPErr (Nat × Task) :=
  match get_current_user token tdb with
  | none => .error credentials_exception
  | some u =>
    match read_task task_id u db with
    | none => .error { status_code := 404, detail := "Task not found" }
    | some t => .ok (200, t)

/-- Route `PUT /tasks/{task_id}` as served. -/
def update_endpoint (token : String) (tdb : TokensDb) (task_id : Int)
    (task_update : TaskBase) (db : List Task) :
    Except HTTPErr (Nat × Task × List Task) :=
  match get_current_user token tdb with
  | none => .error credentials_exception
  | some u =>
    match update_task task_id task_update u db with
    | none => .error { status_code := 404, detail := "Task not found" }
    | some r => .ok (200, r.1, r.2)

/-- Route `DELETE /tasks/{task_id}` as served: success is 204 with no body. -/
def delete_endpoint (token : String) (tdb : TokensDb) (task_id : Int)
    (db : List Task) : Except HTTPErr (Nat × List Task) :=
  match get_current_user token tdb with
  | none => .error credentials_exception
  | some u =>
    match delete_task task_id u db with
    | none => .error { status_code := 404, detail := "Task not found" }
    | some db2 => .ok (204, db2)

/-- The identity label both exchange handlers derive:
`user_id = "user_" + tokens["access_token"][-8:]`. -/
def user_id_of (access_token : String) : String :=
  "user_" ++ access_token.takeRight 8

/-- Python dict assignment `tokens_db[user_id] = tokens` on the ordered
association list: overwrite in place if the key exists, else append. -/
def dictSet (k : String) (v : ProviderTokens) : TokensDb → TokensDb
  | [] => [(k, v)]
  | p :: rest => if p.1 == k then (k, v) :: rest else p :: dictSet k v rest

/-- The JSON body `GET /oauth/callback` returns on success. -/
structure CallbackResponse where
  message : String
  user_id : String
  token_type : String
  access_token_preview : String
  instance_url : String
deriving DecidableEq, Repr

/-- Source `oauth_callback`, after the outbound exchange request:
on a non-200 provider response raise 400 with the provider's body text in
the detail (before touching `tokens_db`); on 200 derive the user id from
the last 8 characters of the access token, store the payload, and answer.
Returns (handler outcome, token map after the call). -/
def oauth_callback (resp : ProviderResponse) (tdb : TokensDb) :
    Except HTTPErr CallbackResponse × TokensDb :=
  if resp.status_code != 200 then
    (.error { status_code := 400
              detail := "Failed to obtain access token: " ++ resp.text }, tdb)
  else
    let user_id := user_id_of resp.tokens.access_token
    (.ok { message := "Successfully authenticated with Salesforce"
           user_id := user_id
           token_type := resp.tokens.token_type
           access_token_preview := resp.tokens.access_token.take 10 ++ "..."
           instance_url := resp.tokens.instance_url.getD "N/A" },
     dictSet user_id resp.tokens tdb)

/-- Source `POST /oauth/token`: validate the grant parameters (400
`"Invalid request parameters"` otherwise), then the same exchange/store
shape as the callback, answering with the `Token` model.
Returns (handler outcome, token map after the call). -/
def token_endpoint (code : Option String) (refresh_token : Option String)
    (grant_type : String) (resp : ProviderResponse) (tdb : TokensDb) :
    Except HTTPErr Token × TokensDb :=
  if (grant_type == "authorization_code" && code.isSome)
      || (grant_type == "refresh_token" && refresh_token.isSome) then
    if resp.status_code != 200 then
      (.error { status_code := 400
                detail := "Failed to obtain access token: " ++ resp.text }, tdb)
    else
      let user_id := user_id_of resp.tokens.access_token
      (.ok { access_token := resp.tokens.access_token
             token_type := resp.tokens.token_type
             expires_in := resp.tokens.expires_in.getD 7200
             refresh_token := resp.tokens.refresh_token
             scope := resp.tokens.scope
             instance_url := resp.tokens.instance_url },
       dictSet user_id resp.tokens tdb)
  else
    (.error { status_code := 400, detail := "Invalid request parameters" }, tdb)

end TaskApi

namespace TaskApi

/-! ## Concrete fixtures used by several theorems -/

/-- A resolved caller identity used where a handler needs one. -/
def sample_user : User := { username := "u" }

/-- The creation body of the spec's scenario:
`{name:"x", status:"Pas commencé", priority:"Normal", capacity:10, effort:5}`
in the source's field names. -/
def sample_fields : TaskCreate :=
  { Task_Name__c := "x"
    Status := .PAS_COMMENCE
    Capacite__c := 10
    Effort_Realise__c := 5
    Priority := .NORMAL }

/-- A provider token payload whose access token is `"tok"`. -/
def ptok : ProviderTokens := { access_token := "tok", token_type := "Bearer" }

/-- A session token map holding exactly the entry for `ptok`. -/
def tdb0 : TokensDb := [("user_x", ptok)]

end TaskApi

namespace TaskApi

/-! ## C1 — task id uniqueness -/

/-- C1: the id-uniqueness invariant fails on the code. From the initial
20-task store (ids 1..20), `delete(1)` shrinks the store to 19 records and
the next create assigns `id = len(db) + 1 = 20`, so the store then holds two
simultaneously-existing records with id 20. -/
theorem id_not_unique_after_delete :
    (delete_task 1 sample_user initial_tasks_db).map (fun db1 =>
      ((create_task sample_fields sample_user db1).2.filter
        (fun t => t.id == 20)).length) = some 2 := by decide

/-! ## C2 — scope enforcement -/

/-- C2: required scopes are never checked. With the session map holding the
token `"tok"`, the resolved identity's granted scopes are exactly `["api"]`
(the `write` scope is not among them), yet `DELETE /tasks/1` — a mutation —
succeeds with 204; no `InsufficientScope`/403 outcome exists in the code. -/
theorem scope_not_enforced :
    ("write" : String) ∉ (["api"] : List String)
    ∧ (get_current_user "tok" tdb0).map User.scopes = some ["api"]
    ∧ delete_endpoint "tok" tdb0 1 initial_tasks_db
        = .ok (204, initial_tasks_db.drop 1) := by
  refine ⟨by decide, by decide, ?_⟩
  rfl

/-! ## C3 — token expiry -/

/-- A stored provider payload that is already expired (`expires_in = 0`). -/
def ptok_expired : ProviderTokens :=
  { access_token := "tokE", token_type := "Bearer", expires_in := some 0 }

/-- The same payload reported as fresh by the provider. -/
def ptok_fresh : ProviderTokens :=
  { access_token := "tokE", token_type := "Bearer", expires_in := some 7200 }

/-- C3: expiry is never checked. `get_current_user` has no notion of time:
a token whose provider payload says it expires immediately still resolves,
and the outcome is identical to that of an unexpired payload — authorization
never fails with `InvalidCredentials` after `expiresAt`. -/
theorem expiry_not_checked :
    ptok_expired.expires_in = some 0
    ∧ (get_current_user "tokE" [("u", ptok_expired)]).isSome = true
    ∧ get_current_user "tokE" [("u", ptok_expired)]
        = get_current_user "tokE" [("u", ptok_fresh)] := by decide

/-! ## C5 — identity label derivation -/

/-- A provider payload whose access token ends in `12345678`. -/
def ptokA : ProviderTokens :=
  { access_token := "AAAAAAAAAA12345678", token_type := "Bearer" }

/-- A distinct provider payload whose access token ends in the same
8 characters. -/
def ptokB : ProviderTokens :=
  { access_token := "BBBB12345678", token_type := "Bearer" }

/-- C5: the identity label is `"user_" ++` the last 8 characters of the
opaque access token, so two distinct provider identities collide on the
label `user_12345678`; the second successful exchange overwrites the first
identity's entry, after which the first access token no longer resolves. -/
theorem identity_label_collision :
    ptokA.access_token ≠ ptokB.access_token
    ∧ user_id_of ptokA.access_token = user_id_of ptokB.access_token
    ∧ (oauth_callback { status_code := 200, text := "", tokens := ptokB }
        (oauth_callback { status_code := 200, text := "", tokens := ptokA }
          []).2).2
      = [("user_12345678", ptokB)]
    ∧ get_current_user ptokA.access_token
        (oauth_callback { status_code := 200, text := "", tokens := ptokB }
          (oauth_callback { status_code := 200, text := "", tokens := ptokA }
            []).2).2
      = none := by decide

/-! ## C7 — first create on the initial store -/

/-- C7, counterexample: the store is pre-populated with 20 tasks, so the
first create performed on the initial store is assigned
`id = len(db) + 1 = 21`, not 1. -/
theorem first_create_id_ne_one :
    (create_task sample_fields sample_user initial_tasks_db).1.id = 21
    ∧ (21 : Int) ≠ 1 := by decide

/-- The record the first create stores: the scenario's fields under id 21. -/
def task21 : Task :=
  { id := 21
    Task_Name__c := "x"
    Status := .PAS_COMMENCE
    Capacite__c := 10
    Effort_Realise__c := 5
    subject := "Other"
    Priority := .NORMAL }

/-- C7, amended: starting from the initial (pre-populated, 20-record) store,
the first create with the scenario's fields, using a token present in the
session map, returns 201 with `id = 21` and appends the record; an immediate
`GET /tasks/21` returns 200 with the same fields. -/
theorem first_create_spec :
    create_endpoint "tok" tdb0 sample_fields initial_tasks_db
      = .ok (201, task21, initial_tasks_db ++ [task21])
    ∧ read_task_endpoint "tok" tdb0 21 (initial_tasks_db ++ [task21])
      = .ok (200, task21) := by
  constructor
  · rfl
  · rfl

end TaskApi

namespace TaskApi

/-! ## C4 — rejected code exchange -/

/-- C4, counterexample: the error raised for a rejected exchange does not
carry the provider's status. Two provider rejections with distinct statuses
(401 and 500) but the same body produce identical outcomes — the handler
always raises its own fixed 400, keeping only the body text. -/
theorem exchange_error_forgets_status :
    oauth_callback { status_code := 401, text := "x", tokens := ptok } tdb0
      = oauth_callback { status_code := 500, text := "x", tokens := ptok } tdb0
    ∧ (401 : Nat) ≠ 500 := by
  exact ⟨rfl, by decide⟩

/-- C4, amended: for every provider response the provider rejects (status
other than 200), the callback exchange raises a fixed 400 error whose detail
carries the provider's response body, and both exchange handlers leave the
token map unchanged and store nothing (`/oauth/token` never succeeds on such
a response, whatever the grant parameters). -/
theorem exchange_error_spec (resp : ProviderResponse) (tdb : TokensDb)
    (h : resp.status_code ≠ 200) :
    oauth_callback resp tdb
      = (.error { status_code := 400
                  detail := "Failed to obtain access token: " ++ resp.text },
         tdb)
    ∧ (∀ code refresh grant,
        (token_endpoint code refresh grant resp tdb).2 = tdb
        ∧ (token_endpoint code refresh grant resp tdb).1.isOk = false) := by
  have hb : (resp.status_code != 200) = true := by simpa using h
  constructor
  · simp [oauth_callback, hb]
  · intro code refresh grant
    unfold token_endpoint
    split
    · simp [hb, Except.isOk, Except.toBool]
    · simp [Except.isOk, Except.toBool]

/-- C4 amended, witness at a concrete rejected response. -/
theorem exchange_error_spec_witness :
    oauth_callback { status_code := 401, text := "bad code", tokens := ptok }
        tdb0
      = (.error { status_code := 400
                  detail := "Failed to obtain access token: bad code" },
         tdb0) :=
  (exchange_error_spec { status_code := 401, text := "bad code", tokens := ptok }
    tdb0 (by decide)).1

/-! ## C6 — list slicing safety -/

/-- C6: `list(skip, limit)` is total for all non-negative `skip`/`limit`
(the embedding of `tasks_db[skip : skip+limit]` is a total function): the
result has length `min limit (size - skip)`, its `i`-th element is the
record at position `skip + i` of the store (in insertion order) for every
`i < limit` within range and nothing otherwise, and the result is empty
whenever `skip` is at or beyond the store size. -/
theorem read_tasks_spec (skip limit : Nat) (u : User) (db : List Task) :
    (read_tasks skip limit u db).length = min limit (db.length - skip)
    ∧ (∀ i : Nat, (read_tasks skip limit u db)[i]? =
        if i < limit then db[skip + i]? else none)
    ∧ (db.length ≤ skip → read_tasks skip limit u db = []) := by
  refine ⟨?_, ?_, ?_⟩
  · simp [read_tasks]
  · intro i
    simp [read_tasks, List.getElem?_take, List.getElem?_drop]
  · intro hle
    simp [read_tasks, List.drop_eq_nil_of_le hle]

/-- C6, witness: out-of-range values on the concrete initial store (size 20,
`skip = 25`) yield the empty sequence without error. -/
theorem read_tasks_spec_witness :
    read_tasks 25 7 sample_user initial_tasks_db = [] :=
  (read_tasks_spec 25 7 sample_user initial_tasks_db).2.2 (by decide)

end TaskApi

namespace TaskApi

/-! ## C8 — delete/get agreement -/

/-- C8, counterexample: on a reachable store, get after a successful delete
can still find the id. From the initial store: `delete(1)`, then one create
(which reuses id 20), then `delete(20)` succeeds — yet an immediate
`get(20)` returns the remaining duplicate record rather than NotFound. -/
theorem delete_then_get_found :
    (((delete_task 1 sample_user initial_tasks_db).bind fun db1 =>
        delete_task 20 sample_user
          (create_task sample_fields sample_user db1).2).bind fun db3 =>
        read_task 20 sample_user db3)
      = some { id := 20, Task_Name__c := "x", Status := .PAS_COMMENCE,
               Capacite__c := 10, Effort_Realise__c := 5, subject := "Other",
               Priority := .NORMAL } := by decide

/-- Operation `get` misses exactly when no stored record has the id. -/
theorem read_task_eq_none_iff (task_id : Int) (u : User) (db : List Task) :
    read_task task_id u db = none ↔ ∀ t ∈ db, t.id ≠ task_id := by
  simp [read_task, List.find?_eq_none]

/-- Operation `update` misses exactly when no stored record has the id. -/
theorem update_task_eq_none_iff (task_id : Int) (b : TaskBase) (u : User)
    (db : List Task) :
    update_task task_id b u db = none ↔ ∀ t ∈ db, t.id ≠ task_id := by
  induction db with
  | nil => simp [update_task]
  | cons t ts ih =>
    by_cases hid : t.id = task_id
    · simp [update_task, hid]
    · simp [update_task, hid, ih]

/-- Operation `delete` misses exactly when no stored record has the id. -/
theorem delete_task_eq_none_iff (task_id : Int) (u : User) (db : List Task) :
    delete_task task_id u db = none ↔ ∀ t ∈ db, t.id ≠ task_id := by
  induction db with
  | nil => simp [delete_task]
  | cons t ts ih =>
    by_cases hid : t.id = task_id
    · simp [delete_task, hid]
    · simp [delete_task, hid, ih]

/-- On a store with pairwise-distinct ids, a successful delete removes the
only record carrying the id, so an immediate get misses. -/
theorem read_task_after_delete (task_id : Int) (u1 u2 : User) :
    ∀ db : List Task, (db.map Task.id).Nodup →
      ∀ db2, delete_task task_id u1 db = some db2 →
        read_task task_id u2 db2 = none := by
  intro db
  induction db with
  | nil =>
    intro _ db2 h
    simp [delete_task] at h
  | cons t ts ih =>
    intro hnd db2 hdel
    have hnd2 : (t.id :: ts.map Task.id).Nodup := by simpa using hnd
    have hnd' : (ts.map Task.id).Nodup := (List.nodup_cons.mp hnd2).2
    by_cases hid : t.id = task_id
    · have hdb2 : ts = db2 := by simpa [delete_task, hid] using hdel
      subst hdb2
      have hnotin : t.id ∉ ts.map Task.id := (List.nodup_cons.mp hnd2).1
      rw [read_task_eq_none_iff]
      intro t2 ht2 he
      exact hnotin (by rw [hid, ← he]; exact List.mem_map_of_mem _ ht2)
    · simp [delete_task, hid] at hdel
      obtain ⟨r, hr, hdb2⟩ := hdel
      subst hdb2
      rw [read_task_eq_none_iff]
      intro t2 ht2
      rcases List.mem_cons.mp ht2 with rfl | hm
      · exact hid
      · exact (read_task_eq_none_iff task_id u2 r).mp (ih hnd' r hr) t2 hm

/-- C8, amended: on every store state whose record ids are pairwise
distinct (duplicates are reachable through the id-reuse bug), after
`delete(id)` succeeds an immediate `get(id)` returns NotFound; and on every
state, `get`, `update` and `delete` return NotFound exactly when no record
with the id exists. -/
theorem delete_get_spec (task_id : Int) (u1 u2 : User) (db : List Task)
    (hnd : (db.map Task.id).Nodup) :
    (∀ db2, delete_task task_id u1 db = some db2 →
        read_task task_id u2 db2 = none)
    ∧ (read_task task_id u1 db = none ↔ ∀ t ∈ db, t.id ≠ task_id)
    ∧ (∀ b, update_task task_id b u1 db = none ↔ ∀ t ∈ db, t.id ≠ task_id)
    ∧ (delete_task task_id u1 db = none ↔ ∀ t ∈ db, t.id ≠ task_id) :=
  ⟨read_task_after_delete task_id u1 u2 db hnd,
   read_task_eq_none_iff task_id u1 db,
   fun b => update_task_eq_none_iff task_id b u1 db,
   delete_task_eq_none_iff task_id u1 db⟩

/-- C8 amended, witness: deleting id 1 from the (duplicate-free) initial
store makes an immediate get of id 1 miss. -/
theorem delete_get_spec_witness :
    read_task 1 sample_user (initial_tasks_db.drop 1) = none :=
  (delete_get_spec 1 sample_user sample_user initial_tasks_db (by decide)).1
    (initial_tasks_db.drop 1) (by decide)

end TaskApi

namespace TaskApi

/-! ## C9 — any session token authorizes everything -/

/-- C9: every identity resolved from the session map carries exactly the
scope set `["api"]` and `disabled = false`; no task handler reads the
resolved identity (each handler's outcome is the same for any two callers);
and any token present in the session map passes the auth gate of every task
endpoint — reads and mutations alike never answer 401 for it, and the
create and list endpoints then succeed outright. -/
theorem session_token_authorizes_everything :
    (∀ token tdb u, get_current_user token tdb = some u →
        u.scopes = ["api"] ∧ u.disabled = some false)
    ∧ (∀ t u1 u2 db, create_task t u1 db = create_task t u2 db)
    ∧ (∀ s l u1 u2 db, read_tasks s l u1 db = read_tasks s l u2 db)
    ∧ (∀ i u1 u2 db, read_task i u1 db = read_task i u2 db)
    ∧ (∀ i b u1 u2 db, update_task i b u1 db = update_task i b u2 db)
    ∧ (∀ i u1 u2 db, delete_task i u1 db = delete_task i u2 db)
    ∧ (∀ token tdb, (∃ p ∈ tdb, p.2.access_token = token) →
        (get_current_user token tdb).isSome = true
        ∧ (∀ t db, (create_endpoint token tdb t db).isOk = true)
        ∧ (∀ s l db, (read_tasks_endpoint token tdb s l db).isOk = true)
        ∧ (∀ i db,
            read_task_endpoint token tdb i db ≠ .error credentials_exception)
        ∧ (∀ i b db,
            update_endpoint token tdb i b db ≠ .error credentials_exception)
        ∧ (∀ i db,
            delete_endpoint token tdb i db ≠ .error credentials_exception)) := by
  refine ⟨?_, fun t u1 u2 db => rfl, fun s l u1 u2 db => rfl,
    fun i u1 u2 db => rfl, ?_, ?_, ?_⟩
  · intro token tdb u h
    simp only [get_current_user, Option.map_eq_some'] at h
    obtain ⟨p, hp, rfl⟩ := h
    exact ⟨rfl, rfl⟩
  · intro i b u1 u2 db
    induction db with
    | nil => rfl
    | cons t ts ih => simp [update_task, ih]
  · intro i u1 u2 db
    induction db with
    | nil => rfl
    | cons t ts ih => simp [delete_task, ih]
  · intro token tdb hex
    obtain ⟨p, hp, hacc⟩ := hex
    have hs : (get_current_user token tdb).isSome = true := by
      simp only [get_current_user, Option.isSome_map']
      exact List.find?_isSome.mpr ⟨p, hp, by simp [hacc]⟩
    obtain ⟨u, hu⟩ := Option.isSome_iff_exists.mp hs
    refine ⟨hs, ?_, ?_, ?_, ?_, ?_⟩
    · intro t db
      simp [create_endpoint, hu, Except.isOk, Except.toBool]
    · intro s l db
      simp [read_tasks_endpoint, hu, Except.isOk, Except.toBool]
    · intro i db
      cases hr : read_task i u db <;>
        simp [read_task_endpoint, hu, hr, credentials_exception]
    · intro i b db
      cases hr : update_task i b u db <;>
        simp [update_endpoint, hu, hr, credentials_exception]
    · intro i db
      cases hr : delete_task i u db <;>
        simp [delete_endpoint, hu, hr, credentials_exception]

/-- C9, witness: with the concrete session map holding token `"tok"`, a
mutation endpoint is not refused with 401 for that token. -/
theorem session_token_witness :
    delete_endpoint "tok" tdb0 99 initial_tasks_db
      ≠ .error credentials_exception :=
  ((session_token_authorizes_everything).2.2.2.2.2.2 "tok" tdb0
    ⟨("user_x", ptok), by decide, rfl⟩).2.2.2.2.2 99 initial_tasks_db

end TaskApi

namespace TaskApi

/-! ## C10 — update replaces the first match in place -/

/-- When some record carries the id, `update_task` rewrites exactly the
position of the first such record (the `findIdx` of the id) with the
rebuilt record and returns it; every earlier position carries a different
id. -/
theorem update_task_first (task_id : Int) (b : TaskBase) (u : User) :
    ∀ db : List Task, (∃ t ∈ db, t.id = task_id) →
      update_task task_id b u db
        = some (taskOfBase task_id b,
            db.set (db.findIdx (fun t => t.id == task_id))
              (taskOfBase task_id b))
      ∧ db.findIdx (fun t => t.id == task_id) < db.length
      ∧ (db[db.findIdx (fun t => t.id == task_id)]?).map Task.id
          = some task_id
      ∧ (∀ j, j < db.findIdx (fun t => t.id == task_id) →
          (db[j]?).map Task.id ≠ some task_id) := by
  intro db
  induction db with
  | nil =>
    intro h
    simp at h
  | cons t ts ih =>
    intro h
    by_cases hid : t.id = task_id
    · have hfi : (t :: ts).findIdx (fun x => x.id == task_id) = 0 := by
        simp [List.findIdx_cons, hid]
      refine ⟨?_, ?_, ?_, ?_⟩
      · simp [update_task, hid, hfi]
      · simp [hfi]
      · simp [hfi, hid]
      · intro j hj
        rw [hfi] at hj
        exact absurd hj (Nat.not_lt_zero j)
    · have hbeq : (t.id == task_id) = false := by simp [hid]
      have hfi : (t :: ts).findIdx (fun x => x.id == task_id)
          = (ts.findIdx fun x => x.id == task_id) + 1 := by
        simp [List.findIdx_cons, hbeq]
      have h2 : ∃ t2 ∈ ts, t2.id = task_id := by
        obtain ⟨t2, ht2, he⟩ := h
        rcases List.mem_cons.mp ht2 with rfl | hm
        · exact absurd he hid
        · exact ⟨t2, hm, he⟩
      obtain ⟨ihup, ihlt, ihat, ihbefore⟩ := ih h2
      refine ⟨?_, ?_, ?_, ?_⟩
      · simp [update_task, hid, ihup, hfi]
      · rw [hfi]
        simpa using Nat.succ_lt_succ ihlt
      · rw [hfi]
        simpa using ihat
      · intro j hj
        rw [hfi] at hj
        cases j with
        | zero => simp [hid]
        | succ j2 =>
          have := ihbefore j2 (Nat.lt_of_succ_lt_succ hj)
          simpa using this

/-- C10: when a record with the given id exists, `update(id, fields)`
replaces in place only the first record in insertion order whose id
matches — the record stored there is the rebuilt one, whose id equals the
matched record's id — while the store's length and every other position are
left unchanged. -/
theorem update_task_spec (task_id : Int) (b : TaskBase) (u : User)
    (db : List Task) (h : ∃ t ∈ db, t.id = task_id) :
    update_task task_id b u db
      = some (taskOfBase task_id b,
          db.set (db.findIdx (fun t => t.id == task_id))
            (taskOfBase task_id b))
    ∧ db.findIdx (fun t => t.id == task_id) < db.length
    ∧ (db[db.findIdx (fun t => t.id == task_id)]?).map Task.id = some task_id
    ∧ (∀ j, j < db.findIdx (fun t => t.id == task_id) →
        (db[j]?).map Task.id ≠ some task_id)
    ∧ (taskOfBase task_id b).id = task_id
    ∧ (∀ j, j ≠ db.findIdx (fun t => t.id == task_id) →
        (db.set (db.findIdx (fun t => t.id == task_id))
          (taskOfBase task_id b))[j]? = db[j]?)
    ∧ (db.set (db.findIdx (fun t => t.id == task_id))
        (taskOfBase task_id b)).length = db.length := by
  obtain ⟨h1, h2, h3, h4⟩ := update_task_first task_id b u db h
  refine ⟨h1, h2, h3, h4, rfl, ?_, List.length_set ..⟩
  intro j hj
  exact List.getElem?_set_ne (Ne.symm hj)

/-- C10, witness: updating id 3 on the concrete initial store. -/
theorem update_task_spec_witness :
    update_task 3 sample_fields sample_user initial_tasks_db
      = some (taskOfBase 3 sample_fields,
          initial_tasks_db.set
            (initial_tasks_db.findIdx (fun t => t.id == 3))
            (taskOfBase 3 sample_fields)) :=
  (update_task_spec 3 sample_fields sample_user initial_tasks_db
    ⟨init_task 3, by decide, by decide⟩).1

end TaskApi
